import Mathlib

/-!
Shallow embedding of the Udacity trivia API backend
(`backend/flaskr/__init__.py`): the pagination helper, the question list /
delete / create / search handlers, the quiz-play handler and the error
taxonomy, together with theorems checking the natural-language specification
against this embedding.

Conventions of the embedding:
* Python values appearing in JSON bodies and query strings are modelled by
  `PyVal` (`None`, `int`, `str`).
* Flask delivers every query-string argument as a `str` (or `None` when the
  parameter is absent); `request.args.get(name, default, type=int)` attempts
  `int(value)` and falls back to the default on failure.
* A handler's outcome is `Except Nat resp`: `.error code` is the HTTP error
  produced through `abort`/the registered error handlers, `.ok` the JSON
  success body.  Inside a handler, exceptional control flow is
  `Except PyErr`: `PyErr.abort code` models `flask.abort(code)` and
  `PyErr.exc` any other raised Python exception (`TypeError`,
  `ValueError`, `AttributeError`, `NameError`, ...).  An uncaught
  `PyErr.exc` becomes HTTP 500 via Flask's default error handling.
-/

deriving instance DecidableEq for Except

/-- Python values as they occur in the request bodies and query arguments
relevant here: `None`, `int`, `str`. -/
inductive PyVal where
  | none
  | int (n : Int)
  | str (s : String)
deriving DecidableEq, Repr

/-- Digits of a numeral string to the natural number they denote. -/
def digitsToNat (l : List Char) : Nat :=
  l.foldl (fun a c => a * 10 + (c.toNat - Char.toNat '0')) 0

/-- Python `int(s)` on a string: optional sign followed by digits; anything
else raises `ValueError` (modelled as `none`).  (Surrounding whitespace and
digit-group underscores, which Python also accepts, are not modelled; no
claim depends on them.) -/
def pyParseInt (s : String) : Option Int :=
  match s.toList with
  | '-' :: rest =>
      if rest.isEmpty then Option.none
      else if rest.all Char.isDigit then Option.some (-(digitsToNat rest : Int))
      else Option.none
  | '+' :: rest =>
      if rest.isEmpty then Option.none
      else if rest.all Char.isDigit then Option.some (digitsToNat rest : Int)
      else Option.none
  | l =>
      if l.isEmpty then Option.none
      else if l.all Char.isDigit then Option.some (digitsToNat l : Int)
      else Option.none

/-- Python `int(v)` on a `PyVal`: ints pass through, strings are parsed,
`None` raises `TypeError` (modelled as `none`). -/
def pyInt : PyVal → Option Int
  | .int n => Option.some n
  | .str s => pyParseInt s
  | .none => Option.none

/-- Flask's `request.args.get(name, default, type=int)`: absent parameter or
failed `int()` conversion yields the default. -/
def flaskGetInt (arg : Option String) (default : Int) : Int :=
  match arg with
  | Option.none => default
  | Option.some s => (pyParseInt s).getD default

/-- Resolve one bound of a Python slice `l[start:end]` (step 1) for a list of
length `n`: a negative index counts from the end, then both bounds are
clamped into `[0, n]`. -/
def pyResolveIdx (n : Nat) (i : Int) : Nat :=
  if i < 0 then ((n : Int) + i).toNat else min i.toNat n

/-- Python list slicing `l[start:end]` with step 1. -/
def pySlice (l : List α) (start stop : Int) : List α :=
  let s := pyResolveIdx l.length start
  let e := pyResolveIdx l.length stop
  (l.drop s).take (e - s)

/-- The query-string arguments of a request, as Flask hands them to the
handlers: raw strings, absent when the parameter was not supplied. -/
structure Req where
  page : Option String := Option.none
  category : Option String := Option.none
deriving DecidableEq, Repr

/-- The exceptional outcomes inside a handler body: `flask.abort(code)`, or
any other raised Python exception. -/
inductive PyErr where
  | abort (code : Nat)
  | exc
deriving DecidableEq, Repr

/-- A bare `try: ... except: abort(code)` block: any raise inside the body —
including an `abort` — is swallowed and replaced by `abort(code)`. -/
def pyCatchAll (body : Except PyErr α) (code : Nat) : Except PyErr α :=
  match body with
  | .ok a => .ok a
  | .error _ => .error (.abort code)

/-- Flask's dispatch of a handler outcome: `abort(code)` is rendered by the
registered error handler for `code`, any other uncaught exception becomes
HTTP 500. -/
def runHandler (body : Except PyErr α) : Except Nat α :=
  match body with
  | .ok a => .ok a
  | .error (.abort code) => .error code
  | .error .exc => .error 500

/-- The JSON error body produced by the registered error handlers. -/
def errorMessage : Nat → String
  | 404 => "resource not found"
  | 422 => "unprocessable"
  | 400 => "bad request"
  | 500 => "internal server error"
  | _ => ""

/-- A stored question row: identifier, question text, answer text, category
reference (nullable), difficulty (nullable in the model; the create handler
may pass `None`). -/
structure Question where
  id : Nat
  question : String
  answer : String
  category : Option Int
  difficulty : Option Int
deriving DecidableEq, Repr

/-- A stored category row: identifier and type label. -/
structure Category where
  id : Int
  type : String
deriving DecidableEq, Repr

/-- Modelled from the spec: the formatted (JSON) projection of a `Question`
(`Question.format` lives in `models.py`, which is not part of the sources;
the glossary defines a formatted entity as the JSON-serializable projection
of the entity's fields). -/
structure FormattedQuestion where
  id : Nat
  question : String
  answer : String
  category : Option Int
  difficulty : Option Int
deriving DecidableEq, Repr

/-- Modelled from the spec: the formatted (JSON) projection of a `Category`,
the `{id, type}` object. -/
structure FormattedCategory where
  id : Int
  type : String
deriving DecidableEq, Repr

/-- Modelled from the spec: `Question.format()` from `models.py`. -/
def Question.format (q : Question) : FormattedQuestion :=
  { id := q.id, question := q.question, answer := q.answer,
    category := q.category, difficulty := q.difficulty }

/-- Modelled from the spec: `Category.format()` from `models.py`. -/
def Category.format (c : Category) : FormattedCategory :=
  { id := c.id, type := c.type }

/-- The persistent store: the `questions` and `categories` tables, in the
store's iteration order. -/
structure DB where
  questions : List Question
  categories : List Category
deriving DecidableEq, Repr

/-- `paginate_questions(request, questions)`: read the `page` argument
(default 1), format the questions and return the Python slice
`[(page-1)*10 : (page-1)*10 + 10]`. -/
def paginate_questions (req : Req) (questions : List Question) : List FormattedQuestion :=
  let page := flaskGetInt req.page 1
  let start := (page - 1) * 10
  let stop := start + 10
  pySlice (questions.map Question.format) start stop

/-- All suffixes of a list, longest first (the list itself down to `[]`). -/
def tailsL : List Char → List (List Char)
  | [] => [[]]
  | c :: cs => (c :: cs) :: tailsL cs

/-- Lower-case a character list (the case folding `ILIKE` applies). -/
def lowerL (l : List Char) : List Char := l.map Char.toLower

/-- PostgreSQL `ILIKE` pattern matching (case-insensitive `LIKE`; the store
is PostgreSQL, pinned by `test_flaskr.py`), as invoked by
`Question.question.ilike(...)` with no `ESCAPE` clause, so the default
escape character `\` applies: `\x` matches the literal character `x`
(up to case), `%` matches any character sequence, `_` any single character,
and every other pattern character matches itself up to case.  A pattern
ending in a bare `\` is a PostgreSQL error ("LIKE pattern must not end with
escape character"); the handler's patterns always end in `%` (a trailing
`\` in the term escapes that final `%` instead), so that arm is unreachable
from the handler and modelled as no-match. -/
def likeMatch : List Char → List Char → Bool
  | [], s => s.isEmpty
  | p :: ps, s =>
      if p = '\\' then
        match ps, s with
        | [], _ => false
        | _ :: _, [] => false
        | p2 :: ps2, c :: cs => (p2.toLower == c.toLower) && likeMatch ps2 cs
      else if p = '%' then (tailsL s).any (fun s2 => likeMatch ps s2)
      else
        match s with
        | [] => false
        | c :: cs => (if p = '_' then true else p.toLower == c.toLower) && likeMatch ps cs

/-- `column.ilike(pattern)` on strings. -/
def ilike (s pattern : String) : Bool :=
  likeMatch pattern.toList s.toList

/-- Modelled from the spec: "case-insensitive substring match against
question text" — `t` occurs in `s` ignoring case, i.e. the lower-cased `t` is
a prefix of some suffix of the lower-cased `s`. -/
def specContainsCI (t s : String) : Bool :=
  (tailsL (lowerL s.toList)).any (fun s2 => (lowerL t.toList).isPrefixOf s2)

/-- A search term is wildcard-free when it contains neither of the SQL LIKE
metacharacters `%` and `_` nor the escape character `\`: such a term reaches
`ILIKE` as pure literal text. -/
def wildcardFree (t : String) : Bool :=
  t.toList.all (fun c => !(c == '%' || c == '_' || c == '\\'))

/-- Success body of `GET /questions`. -/
structure QuestionsResp where
  success : Bool
  questions : List FormattedQuestion
  total_questions : Nat
  current_category : List FormattedCategory
  categories : List FormattedCategory
deriving DecidableEq, Repr

/-- Success body of `DELETE /questions/<id>`. -/
structure DeleteResp where
  success : Bool
  deleted : Nat
  all_questions : List FormattedQuestion
  total_questions : Nat
deriving DecidableEq, Repr

/-- Success body of the create branch of `POST /questions`. -/
structure CreateResp where
  success : Bool
  created : Nat
  all_questions : List FormattedQuestion
  total_questions : Nat
deriving DecidableEq, Repr

/-- Success body of the search branch of `POST /questions`. -/
structure SearchResp where
  success : Bool
  total_questions : Nat
  questions : List FormattedQuestion
deriving DecidableEq, Repr

/-- Success body of `POST /questions` (two shapes, by dispatch). -/
inductive PostResp where
  | search (r : SearchResp)
  | create (r : CreateResp)
deriving DecidableEq, Repr

/-- Success body of `POST /quizzes`. -/
structure QuizResp where
  success : Bool
  question : Option FormattedQuestion
deriving DecidableEq, Repr

/-- The tail shared by both branches of `get_all_questions`: paginate the
fetched questions, `abort(404)` when the page is empty, otherwise assemble
the response. -/
def questionsTail (req : Req) (questions : List Question)
    (current_category categories : List FormattedCategory) : Except PyErr QuestionsResp :=
  let current_questions := paginate_questions req questions
  if current_questions.length == 0 then .error (.abort 404)
  else .ok { success := true, questions := current_questions,
             total_questions := questions.length,
             current_category := current_category, categories := categories }

/-- `GET /questions` (`get_all_questions`): format all categories, read the
raw `category` query argument (`None` when absent, a `str` otherwise), and
test it with `isinstance(current_category, int)`; in the integer branch
filter by category and build a one-element current-category list (attribute
access on a failed category lookup raises), otherwise use all questions and
the full category list.  No `try` block surrounds this handler. -/
def get_all_questions (req : Req) (db : DB) : Except Nat QuestionsResp :=
  let categories := db.categories.map Category.format
  let current_category : PyVal :=
    match req.category with
    | Option.none => PyVal.none
    | Option.some s => PyVal.str s
  runHandler <|
    match current_category with
    | PyVal.int n =>
        let questions := db.questions.filter (fun q => q.category == Option.some n)
        match db.categories.find? (fun c => c.id == n) with
        | Option.none => .error .exc
        | Option.some c => questionsTail req questions [Category.format c] categories
    | _ => questionsTail req db.questions categories categories

/-- The body of `delete_question`'s `try` block: look the question up with
`one_or_none`, `abort(404)` when absent, otherwise delete it, re-fetch and
re-paginate, and answer with the page and its length. -/
def delete_question_try (question_id : Nat) (req : Req) (db : DB) : Except PyErr DeleteResp :=
  match db.questions.find? (fun q => q.id == question_id) with
  | Option.none => .error (.abort 404)
  | Option.some _ =>
      let questions := db.questions.eraseP (fun q => q.id == question_id)
      let current_questions := paginate_questions req questions
      .ok { success := true, deleted := question_id,
            all_questions := current_questions,
            total_questions := current_questions.length }

/-- `DELETE /questions/<id>` (`delete_question`): the whole body, the
`abort(404)` included, sits inside a bare `try: ... except: abort(422)`. -/
def delete_question (question_id : Nat) (req : Req) (db : DB) : Except Nat DeleteResp :=
  runHandler (pyCatchAll (delete_question_try question_id req db) 422)

/-- The JSON body of `POST /questions`: each field is absent (`none`) or
holds a `PyVal` (which may itself be JSON `null` = `PyVal.none`). -/
structure PostBody where
  question : Option PyVal := Option.none
  answer : Option PyVal := Option.none
  category : Option PyVal := Option.none
  difficulty : Option PyVal := Option.none
  searchTerm : Option PyVal := Option.none
deriving DecidableEq, Repr

/-- `int(body.get(key))` when the key is present, `None` otherwise; a failed
coercion raises (`ValueError`/`TypeError`) — and in `create_question` this
happens before the `try` block. -/
def coerceOptInt (field : Option PyVal) : Except PyErr (Option Int) :=
  match field with
  | Option.none => .ok Option.none
  | Option.some v =>
      match pyInt v with
      | Option.some n => .ok (Option.some n)
      | Option.none => .error .exc

/-- Modelled from the spec: the data store assigns strictly increasing
identifiers (`models.py` is not in the sources), so a freshly inserted row
receives an id greater than every stored one. -/
def nextId (db : DB) : Nat :=
  (db.questions.foldr (fun q m => max q.id m) 0) + 1

/-- Modelled from the spec: `Question(...).insert()` from `models.py` —
persist a new row whose text columns must hold text (persisting a non-string
question or answer value fails inside the guarded block), and receive the
next store-assigned identifier. -/
def insertQuestion (db : DB) (question answer : PyVal) (category difficulty : Option Int) :
    Except PyErr (Question × DB) :=
  match question, answer with
  | PyVal.str qt, PyVal.str at' =>
      let q : Question := { id := nextId db, question := qt, answer := at',
                            category := category, difficulty := difficulty }
      .ok (q, { db with questions := db.questions ++ [q] })
  | _, _ => .error .exc

/-- The body of `create_question`'s `try` block: construct and insert the
question, re-fetch and re-paginate, and answer with the new id, the page and
its length. -/
def create_question_try (req : Req) (db : DB) (new_question new_answer : PyVal)
    (new_category new_difficulty : Option Int) : Except PyErr CreateResp :=
  match insertQuestion db new_question new_answer new_category new_difficulty with
  | .error e => .error e
  | .ok (q, db2) =>
      let current_questions := paginate_questions req db2.questions
      .ok { success := true, created := q.id,
            all_questions := current_questions,
            total_questions := current_questions.length }

/-- `create_question(body)`: read `question`/`answer` with `body.get`, coerce
`category`/`difficulty` with `int(...)` — these coercions run BEFORE the
`try` block, so their failure propagates uncaught — then run the guarded
construct-insert-refetch block whose failures become `abort(422)`. -/
def create_question (body : PostBody) (req : Req) (db : DB) : Except PyErr CreateResp :=
  let new_question := body.question.getD PyVal.none
  let new_answer := body.answer.getD PyVal.none
  match coerceOptInt body.category with
  | .error e => .error e
  | .ok new_category =>
      match coerceOptInt body.difficulty with
      | .error e => .error e
      | .ok new_difficulty =>
          pyCatchAll
            (create_question_try req db new_question new_answer new_category new_difficulty) 422

/-- The body of `search_questions`'s `try` block: build the pattern
`'%' + search_term + '%'` (concatenating a non-string term raises
`TypeError`), filter with `ilike`, and return every match unpaginated. -/
def search_questions_try (search_term : PyVal) (db : DB) : Except PyErr SearchResp :=
  match search_term with
  | PyVal.str t =>
      let pattern := "%" ++ t ++ "%"
      let results := (db.questions.filter (fun q => ilike q.question pattern)).map Question.format
      .ok { success := true, total_questions := results.length, questions := results }
  | _ => .error .exc

/-- `search_questions(body)`: `body.get('searchTerm', None)` followed by the
guarded query, whose failures become `abort(422)`. -/
def search_questions (body : PostBody) (db : DB) : Except PyErr SearchResp :=
  pyCatchAll (search_questions_try (body.searchTerm.getD PyVal.none) db) 422

/-- `POST /questions` (`handle_post`): dispatch on the presence of the
`searchTerm` key — search when present (whatever its value), create
otherwise. -/
def handle_post (body : PostBody) (req : Req) (db : DB) : Except Nat PostResp :=
  if body.searchTerm.isSome then
    runHandler (Except.map PostResp.search (search_questions body db))
  else
    runHandler (Except.map PostResp.create (create_question body req db))

/-- The JSON body of `POST /quizzes`: `quiz_category` is absent or an object
with an `id`; `previous_questions` is absent or a list of identifiers. -/
structure QuizCat where
  id : Int
deriving DecidableEq, Repr

/-- Body of `POST /quizzes`. -/
structure QuizBody where
  quiz_category : Option QuizCat := Option.none
  previous_questions : Option (List Nat) := Option.none
deriving DecidableEq, Repr

/-- The body of `play_quiz`'s `try` block: `category['id']` (raises on a
missing `quiz_category`), fetch the category's questions, `abort(404)` when
there are none, then — only when the `previous_questions` key is present —
compute the unseen candidates and pick the first (or `None` when exhausted).
When the key is absent the final `jsonify` reads the never-assigned local
`question`, raising `UnboundLocalError`. -/
def play_quiz_try (category : Option QuizCat) (prev : Option (List Nat)) (db : DB) :
    Except PyErr QuizResp :=
  match category with
  | Option.none => .error .exc
  | Option.some cat =>
      let questions := db.questions.filter (fun q => q.category == Option.some cat.id)
      if questions.length == 0 then .error (.abort 404)
      else
        let question_ids := questions.map (fun q => q.id)
        match prev with
        | Option.some previous_questions =>
            let filtered := question_ids.filter (fun id => !(previous_questions.contains id))
            match filtered with
            | [] => .ok { success := true, question := Option.none }
            | fid :: _ =>
                match db.questions.find? (fun q => q.id == fid) with
                | Option.none => .error .exc
                | Option.some q => .ok { success := true, question := Option.some q.format }
        | Option.none => .error .exc

/-- `POST /quizzes` (`play_quiz`): the whole body sits inside a bare
`try: ... except: abort(422)`. -/
def play_quiz (body : QuizBody) (db : DB) : Except Nat QuizResp :=
  runHandler (pyCatchAll (play_quiz_try body.quiz_category body.previous_questions db) 422)

/-! ### Helper lemmas -/

theorem pyResolveIdx_nonneg (n : Nat) (i : Int) (h : 0 ≤ i) :
    pyResolveIdx n i = min i.toNat n := by
  unfold pyResolveIdx
  rw [if_neg (by omega)]

theorem pySlice_nonneg (l : List α) (s t : Int) (hs : 0 ≤ s) (ht : 0 ≤ t) :
    pySlice l s t = (l.drop s.toNat).take (t.toNat - s.toNat) := by
  unfold pySlice
  rw [pyResolveIdx_nonneg _ _ hs, pyResolveIdx_nonneg _ _ ht]
  simp only []
  rcases Nat.le_total s.toNat l.length with hle | hge
  · rw [Nat.min_eq_left hle]
    rcases Nat.le_total t.toNat l.length with htl | htg
    · rw [Nat.min_eq_left htl]
    · rw [Nat.min_eq_right htg]
      have hlen : (l.drop s.toNat).length = l.length - s.toNat := List.length_drop _ _
      rw [List.take_of_length_le (by omega), List.take_of_length_le (by omega)]
  · rw [Nat.min_eq_right hge, List.drop_eq_nil_of_le (le_refl _),
        List.drop_eq_nil_of_le hge, List.take_nil, List.take_nil]

theorem pySlice_stop_zero (l : List α) (s : Int) : pySlice l s 0 = [] := by
  unfold pySlice
  rw [pyResolveIdx_nonneg _ _ (le_refl 0)]
  simp

theorem runHandler_pyCatchAll_ok (x : Except PyErr α) (c : Nat) (a : α) :
    runHandler (pyCatchAll x c) = .ok a ↔ x = .ok a := by
  cases x <;> simp [pyCatchAll, runHandler]

theorem runHandler_pyCatchAll_error (x : Except PyErr α) (c e : Nat)
    (h : runHandler (pyCatchAll x c) = .error e) : e = c := by
  cases x with
  | ok a => simp [pyCatchAll, runHandler] at h
  | error err => simp [pyCatchAll, runHandler] at h; omega

theorem runHandler_pyCatchAll_of_error (x : Except PyErr α) (c : Nat) (err : PyErr)
    (h : x = .error err) : runHandler (pyCatchAll x c) = .error c := by
  rw [h]; rfl

/-! ### Claims -/

/-- **C5.** For every request whose `page` argument resolves to `p ≥ 1`
(default 1 when absent), the pagination helper returns exactly the
sub-sequence `[(p-1)*10, p*10)` of the formatted sequence; a page past the
last non-empty one yields the empty sequence, which `GET /questions` turns
into a 404 response. -/
theorem paginate_returns_slice (db : DB) (req : Req) (p : Int)
    (hp : 1 ≤ p) (hparse : flaskGetInt req.page 1 = p) :
    paginate_questions req db.questions
      = ((db.questions.map Question.format).drop ((p - 1) * 10).toNat).take 10
    ∧ paginate_questions { req with page := Option.none } db.questions
      = (db.questions.map Question.format).take 10
    ∧ ((db.questions.length : Int) ≤ (p - 1) * 10 →
        get_all_questions { req with category := Option.none } db = Except.error 404) := by
  have hmain : paginate_questions req db.questions
      = ((db.questions.map Question.format).drop ((p - 1) * 10).toNat).take 10 := by
    unfold paginate_questions
    rw [hparse, pySlice_nonneg _ _ _ (by omega) (by omega)]
    congr 1
    omega
  refine ⟨hmain, ?_, ?_⟩
  · unfold paginate_questions
    show pySlice (db.questions.map Question.format) ((flaskGetInt Option.none 1 - 1) * 10)
        ((flaskGetInt Option.none 1 - 1) * 10 + 10) = _
    rw [show flaskGetInt Option.none 1 = 1 from rfl]
    rw [pySlice_nonneg _ _ _ (by omega) (by omega)]
    norm_num
    omega
  · intro hbig
    have hempty : paginate_questions req db.questions = [] := by
      rw [hmain, List.drop_eq_nil_of_le (by simp; omega), List.take_nil]
    show runHandler (questionsTail req db.questions _ _) = _
    unfold questionsTail
    rw [hempty]
    rfl

/-! ### Concrete fixtures -/

/-- A store with two questions in two different categories. -/
def dbTwo : DB :=
  { questions :=
      [ { id := 1, question := "A", answer := "x", category := Option.some 1, difficulty := Option.none },
        { id := 2, question := "B", answer := "y", category := Option.some 2, difficulty := Option.none } ],
    categories := [ { id := 1, type := "Science" }, { id := 2, type := "Art" } ] }

/-- A store with twelve questions (two pages). -/
def dbTwelve : DB :=
  { questions := (List.range 12).map (fun i =>
      { id := i + 1, question := "q", answer := "a", category := Option.some 1,
        difficulty := Option.none }),
    categories := [ { id := 1, type := "Science" } ] }

/-- Twenty questions, for the negative-page example. -/
def qTwenty : List Question :=
  (List.range 20).map (fun i =>
    { id := i + 1, question := "q", answer := "a", category := Option.some 1,
      difficulty := Option.none })

/-- **C1.** The `category` query parameter never changes the response of
`GET /questions`: Flask query arguments are strings, so the
`isinstance(current_category, int)` filter branch is dead code.  At a
concrete store with two questions in two categories, `?category=1` returns
both questions and a two-element `current_category`, where the claim expects
one question and a one-element `current_category`. -/
theorem get_questions_category_param_dead (s : String) (req : Req) (db : DB) :
    get_all_questions { req with category := Option.some s } db
        = get_all_questions { req with category := Option.none } db
    ∧ Except.map (fun r => (r.questions.length, r.current_category.length))
        (get_all_questions { page := Option.none, category := Option.some "1" } dbTwo)
        = Except.ok (2, 2) := by
  exact ⟨rfl, by decide⟩

/-- **C2.** Deleting an identifier that matches no stored question answers
HTTP 422, not the 404 the claim (and the handler's own comment) state: the
`abort(404)` is raised inside the bare `try` block, whose `except` replaces
it with `abort(422)`. -/
theorem delete_missing_question_is_422 (db : DB) (req : Req) (qid : Nat)
    (h : db.questions.find? (fun q => q.id == qid) = Option.none) :
    delete_question qid req db = Except.error 422 := by
  unfold delete_question delete_question_try
  rw [h]
  rfl

theorem delete_missing_question_is_422_witness :
    delete_question 1000 {} dbTwo = Except.error 422 :=
  delete_missing_question_is_422 dbTwo {} 1000 (by decide)

/-- **C8.** A `POST /quizzes` body that carries `quiz_category` but omits the
`previous_questions` key answers 422 (the response-building line reads the
never-assigned local `question`, and the raise is downgraded by the bare
`except`), whether or not the category has questions. -/
theorem quiz_missing_previous_is_422 (db : DB) (cat : QuizCat) :
    play_quiz { quiz_category := Option.some cat, previous_questions := Option.none } db
      = Except.error 422 := by
  by_cases h : (db.questions.filter (fun q => q.category == Option.some cat.id)).length = 0
  · simp [play_quiz, play_quiz_try, h, pyCatchAll, runHandler]
  · simp [play_quiz, play_quiz_try, h, pyCatchAll, runHandler]

/-- **C9.** Page 0 always paginates to the empty sequence (hence 404 on
`GET /questions`), while page `-1` over a 20-element store yields elements 0
through 9: the computed bounds are negative Python slice positions resolved
relative to the end of the list. -/
theorem paginate_page_zero_and_negative (db : DB) (req : Req)
    (h0 : flaskGetInt req.page 1 = 0) :
    paginate_questions req db.questions = []
    ∧ get_all_questions { req with category := Option.none } db = Except.error 404
    ∧ paginate_questions { page := Option.some "-1" } qTwenty
        = (qTwenty.map Question.format).take 10 := by
  have hempty : paginate_questions req db.questions = [] := by
    unfold paginate_questions
    rw [h0]
    show pySlice (db.questions.map Question.format) (((0 : Int) - 1) * 10)
        (((0 : Int) - 1) * 10 + 10) = []
    rw [show ((0 : Int) - 1) * 10 = -10 from by norm_num,
        show (-10 : Int) + 10 = 0 from by norm_num]
    exact pySlice_stop_zero _ _
  refine ⟨hempty, ?_, by decide⟩
  show runHandler (questionsTail req db.questions _ _) = _
  unfold questionsTail
  rw [hempty]
  rfl

theorem paginate_page_zero_and_negative_witness :
    paginate_questions { page := Option.some "0" } dbTwo.questions = []
    ∧ get_all_questions { page := Option.some "0", category := Option.none } dbTwo
        = Except.error 404
    ∧ paginate_questions { page := Option.some "-1" } qTwenty
        = (qTwenty.map Question.format).take 10 :=
  paginate_page_zero_and_negative dbTwo { page := Option.some "0", category := Option.none }
    (by decide)

theorem paginate_returns_slice_witness :
    paginate_questions { page := Option.some "2", category := Option.none } dbTwelve.questions
      = ((dbTwelve.questions.map Question.format).drop (((2 : Int) - 1) * 10).toNat).take 10
    ∧ paginate_questions { page := Option.none, category := Option.none } dbTwelve.questions
      = (dbTwelve.questions.map Question.format).take 10
    ∧ ((dbTwelve.questions.length : Int) ≤ ((2 : Int) - 1) * 10 →
        get_all_questions { page := Option.some "2", category := Option.none } dbTwelve
          = Except.error 404) :=
  paginate_returns_slice dbTwelve { page := Option.some "2", category := Option.none } 2
    (by norm_num) (by decide)

/-- **C7 (counterexample).** Deleting one of twelve questions leaves eleven,
but the response reports `total_questions = 10` — the length of the returned
page, not the size of the entire remaining question set. -/
theorem delete_total_counterexample :
    Except.map (fun r => r.total_questions) (delete_question 1 {} dbTwelve) = Except.ok 10
    ∧ (dbTwelve.questions.eraseP (fun q => q.id == 1)).length = 11 := by decide

/-- **C7 (amended).** A successful `DELETE /questions/<id>` request (no
`page` argument) answers with the deleted identifier, the first page (first
10 in order) of the remaining question set, and a total count equal to the
size of that returned page (`min 10 remaining`), not the size of the entire
remaining set. -/
theorem delete_response_first_page (db : DB) (req : Req) (qid : Nat)
    (hfound : (db.questions.find? (fun q => q.id == qid)).isSome)
    (hpage : req.page = Option.none) :
    delete_question qid req db = Except.ok
      { success := true, deleted := qid,
        all_questions := ((db.questions.eraseP (fun q => q.id == qid)).map Question.format).take 10,
        total_questions :=
          min 10 ((db.questions.eraseP (fun q => q.id == qid)).map Question.format).length } := by
  obtain ⟨q, hq⟩ := Option.isSome_iff_exists.mp hfound
  have hpag : paginate_questions req (db.questions.eraseP (fun q => q.id == qid))
      = ((db.questions.eraseP (fun q => q.id == qid)).map Question.format).take 10 := by
    unfold paginate_questions
    rw [hpage]
    show pySlice ((db.questions.eraseP (fun q => q.id == qid)).map Question.format)
        ((flaskGetInt Option.none 1 - 1) * 10) ((flaskGetInt Option.none 1 - 1) * 10 + 10) = _
    rw [show flaskGetInt Option.none 1 = 1 from rfl]
    rw [pySlice_nonneg _ _ _ (by omega) (by omega)]
    norm_num
    omega
  unfold delete_question delete_question_try
  rw [hq]
  show runHandler (pyCatchAll (Except.ok
      ({ success := true, deleted := qid,
         all_questions := paginate_questions req (db.questions.eraseP (fun q => q.id == qid)),
         total_questions :=
           (paginate_questions req (db.questions.eraseP (fun q => q.id == qid))).length }
        : DeleteResp)) 422) = _
  rw [hpag, List.length_take]
  rfl

theorem delete_response_first_page_witness :
    delete_question 1 {} dbTwelve = Except.ok
      { success := true, deleted := 1,
        all_questions := ((dbTwelve.questions.eraseP (fun q => q.id == 1)).map Question.format).take 10,
        total_questions :=
          min 10 ((dbTwelve.questions.eraseP (fun q => q.id == 1)).map Question.format).length } :=
  delete_response_first_page dbTwelve {} 1 (by decide) rfl

/-- **C4.** When a `POST /quizzes` body supplies a `previous_questions`
list, a returned question's identifier is never an element of that list; and
when the requested category does have questions but every one of their
identifiers appears in `previous_questions`, the response is `success: true`
with a null question. -/
theorem play_quiz_respects_previous (db : DB) (cat : QuizCat) (prev : List Nat) :
    (∀ (r : QuizResp) (fq : FormattedQuestion),
        play_quiz { quiz_category := Option.some cat, previous_questions := Option.some prev } db
          = Except.ok r → r.question = Option.some fq → fq.id ∉ prev)
    ∧ (db.questions.filter (fun q => q.category == Option.some cat.id) ≠ [] →
       (∀ q ∈ db.questions.filter (fun q => q.category == Option.some cat.id), q.id ∈ prev) →
       play_quiz { quiz_category := Option.some cat, previous_questions := Option.some prev } db
          = Except.ok { success := true, question := Option.none }) := by
  have hplay : play_quiz
      { quiz_category := Option.some cat, previous_questions := Option.some prev } db
      = runHandler (pyCatchAll
          (if ((db.questions.filter (fun q => q.category == Option.some cat.id)).length == 0) = true
           then (Except.error (PyErr.abort 404) : Except PyErr QuizResp)
           else
             match ((db.questions.filter
                 (fun q => q.category == Option.some cat.id)).map (fun q => q.id)).filter
                   (fun id => !(prev.contains id)) with
             | [] => Except.ok { success := true, question := Option.none }
             | fid :: _ =>
               match db.questions.find? (fun q => q.id == fid) with
               | Option.none => Except.error PyErr.exc
               | Option.some q => Except.ok { success := true, question := Option.some q.format })
          422) := rfl
  constructor
  · intro r fq hok hq
    rw [hplay] at hok
    have htry := (runHandler_pyCatchAll_ok _ _ _).mp hok
    split at htry
    · exact absurd htry (by simp)
    · split at htry
      case _ hcons =>
        -- exhausted: the returned question is null, contradicting `hq`
        injection htry with h
        rw [← h] at hq
        simp at hq
      case _ fid rest hcons =>
        split at htry
        · exact absurd htry (by simp)
        case _ q hfind =>
          injection htry with h
          rw [← h] at hq
          simp at hq
          subst hq
          have hid : q.id = fid := by
            have := List.find?_some hfind
            simpa using this
          have hfid : fid ∈ ((db.questions.filter
              (fun q => q.category == Option.some cat.id)).map (fun q => q.id)).filter
                (fun id => !(prev.contains id)) := by
            rw [hcons]; exact List.mem_cons_self _ _
          have hnotin := (List.mem_filter.mp hfid).2
          simp at hnotin
          simpa [Question.format, hid] using hnotin
  · intro hne hall
    have hfiltered : ((db.questions.filter
        (fun q => q.category == Option.some cat.id)).map (fun q => q.id)).filter
          (fun id => !(prev.contains id)) = [] := by
      apply List.filter_eq_nil_iff.mpr
      intro a ha
      obtain ⟨q, hq', rfl⟩ := List.mem_map.mp ha
      simp
      exact hall q hq'
    have hlen : ((db.questions.filter
        (fun q => q.category == Option.some cat.id)).length == 0) = false := by
      simp only [beq_eq_false_iff_ne, ne_eq, List.length_eq_zero]
      exact hne
    rw [hplay, hlen, if_neg (by simp), hfiltered]
    rfl

/-- Two questions in the same category, for the quiz witness. -/
def dbQuiz : DB :=
  { questions :=
      [ { id := 1, question := "A", answer := "x", category := Option.some 1, difficulty := Option.none },
        { id := 2, question := "B", answer := "y", category := Option.some 1, difficulty := Option.none } ],
    categories := [ { id := 1, type := "Science" } ] }

theorem play_quiz_respects_previous_witness :
    (2 : Nat) ∉ [1]
    ∧ play_quiz { quiz_category := Option.some ⟨1⟩, previous_questions := Option.some [1, 2] }
        dbQuiz
        = Except.ok { success := true, question := Option.none } :=
  ⟨(play_quiz_respects_previous dbQuiz ⟨1⟩ [1]).1
      { success := true, question := Option.some ⟨2, "B", "y", Option.some 1, Option.none⟩ }
      ⟨2, "B", "y", Option.some 1, Option.none⟩
      (by decide) rfl,
   (play_quiz_respects_previous dbQuiz ⟨1⟩ [1, 2]).2 (by decide) (by decide)⟩

theorem runHandler_map_pyCatchAll_error (x : Except PyErr α) (f : α → β) (c e : Nat)
    (h : runHandler (Except.map f (pyCatchAll x c)) = Except.error e) : e = c := by
  cases x <;> simp [pyCatchAll, runHandler, Except.map] at h
  omega

theorem coerceOptInt_error (o : Option PyVal) (e : PyErr)
    (h : coerceOptInt o = Except.error e) : e = PyErr.exc := by
  cases o with
  | none => simp [coerceOptInt] at h
  | some v =>
      have h2 : (match pyInt v with
          | Option.some n => (Except.ok (Option.some n) : Except PyErr (Option Int))
          | Option.none => Except.error PyErr.exc) = Except.error e := h
      cases hv : pyInt v <;> rw [hv] at h2 <;> simp at h2
      exact h2.symm

/-- **C10.** A `POST /questions` body whose `searchTerm` key is present with
a null value is dispatched to search and answers 422 (concatenating `None`
into the pattern raises inside the broadly caught block); and no request to
this endpoint ever produces a 400. -/
theorem null_search_term_is_422 (body : PostBody) (req : Req) (db : DB)
    (hnull : body.searchTerm = Option.some PyVal.none) :
    handle_post body req db = Except.error 422
    ∧ ∀ (b2 : PostBody) (r2 : Req) (d2 : DB), handle_post b2 r2 d2 ≠ Except.error 400 := by
  constructor
  · unfold handle_post search_questions search_questions_try
    rw [hnull]
    rfl
  · intro b2 r2 d2 hcontra
    unfold handle_post at hcontra
    by_cases hb : b2.searchTerm.isSome
    · rw [if_pos hb] at hcontra
      unfold search_questions at hcontra
      have := runHandler_map_pyCatchAll_error _ _ _ _ hcontra
      omega
    · rw [if_neg hb] at hcontra
      unfold create_question at hcontra
      cases h1 : coerceOptInt b2.category with
      | error e =>
          rw [h1, coerceOptInt_error _ _ h1] at hcontra
          simp [runHandler, Except.map] at hcontra
      | ok nc =>
          rw [h1] at hcontra
          cases h2 : coerceOptInt b2.difficulty with
          | error e =>
              rw [h2, coerceOptInt_error _ _ h2] at hcontra
              simp [runHandler, Except.map] at hcontra
          | ok nd =>
              rw [h2] at hcontra
              have := runHandler_map_pyCatchAll_error _ _ _ _ hcontra
              omega

theorem null_search_term_is_422_witness :
    handle_post { searchTerm := Option.some PyVal.none } {} dbTwo = Except.error 422
    ∧ handle_post { searchTerm := Option.some PyVal.none } {} dbTwo ≠ Except.error 400 := by
  refine ⟨(null_search_term_is_422 { searchTerm := Option.some PyVal.none } {} dbTwo rfl).1, ?_⟩
  exact (null_search_term_is_422 { searchTerm := Option.some PyVal.none } {} dbTwo rfl).2
    { searchTerm := Option.some PyVal.none } {} dbTwo

/-- **C3 (counterexample).** A create request whose `category` value fails
integer coercion (`"abc"`) answers HTTP 500, not the claimed 422: the
`int(...)` calls run before the `try` block, so the `ValueError` is never
caught by the handler. -/
theorem create_coercion_counterexample :
    handle_post
      { question := Option.some (PyVal.str "q"), answer := Option.some (PyVal.str "a"),
        category := Option.some (PyVal.str "abc"), difficulty := Option.some (PyVal.int 2) }
      {} dbTwo = Except.error 500
    ∧ handle_post
      { question := Option.some (PyVal.str "q"), answer := Option.some (PyVal.str "a"),
        category := Option.some (PyVal.str "abc"), difficulty := Option.some (PyVal.int 2) }
      {} dbTwo ≠ Except.error 422 := by decide

/-- **C3 (amended).** A `POST /questions` create request whose `category` or
`difficulty` field fails integer coercion answers HTTP 500 (the coercion
runs before the guarded block, so the raise escapes the handler); only
failures inside the guarded persistence block are reported as 422. -/
theorem create_coercion_error_500 (body : PostBody) (req : Req) (db : DB)
    (habsent : body.searchTerm = Option.none)
    (hfail : (∃ v, body.category = Option.some v ∧ pyInt v = Option.none)
           ∨ (∃ v, body.difficulty = Option.some v ∧ pyInt v = Option.none)) :
    handle_post body req db = Except.error 500 := by
  unfold handle_post
  rw [habsent]
  rw [if_neg (by simp)]
  unfold create_question
  rcases hfail with ⟨v, hv, hpv⟩ | ⟨v, hv, hpv⟩
  · have hc : coerceOptInt body.category = Except.error PyErr.exc := by
      simp [coerceOptInt, hv, hpv]
    rw [hc]
    rfl
  · cases h1 : coerceOptInt body.category with
    | error e =>
        rw [coerceOptInt_error _ _ h1]
        rfl
    | ok nc =>
        have hd : coerceOptInt body.difficulty = Except.error PyErr.exc := by
          simp [coerceOptInt, hv, hpv]
        rw [hd]
        rfl

theorem create_coercion_error_500_witness :
    handle_post
      { question := Option.some (PyVal.str "q"), answer := Option.some (PyVal.str "a"),
        category := Option.some (PyVal.str "oops"), difficulty := Option.some (PyVal.int 2) }
      {} dbTwo = Except.error 500 :=
  create_coercion_error_500
    { question := Option.some (PyVal.str "q"), answer := Option.some (PyVal.str "a"),
      category := Option.some (PyVal.str "oops"), difficulty := Option.some (PyVal.int 2) }
    {} dbTwo rfl (Or.inl ⟨PyVal.str "oops", rfl, by decide⟩)

/-! ### SQL LIKE versus plain substring matching -/

theorem likeMatch_cons (p : Char) (ps : List Char) (s : List Char) :
    likeMatch (p :: ps) s
      = if p = '\\' then
          (match ps, s with
           | [], _ => false
           | _ :: _, [] => false
           | p2 :: ps2, c :: cs => (p2.toLower == c.toLower) && likeMatch ps2 cs)
        else if p = '%' then (tailsL s).any (fun s2 => likeMatch ps s2)
        else match s with
          | [] => false
          | c :: cs => (if p = '_' then true else p.toLower == c.toLower) && likeMatch ps cs := by
  cases ps <;> cases s <;> rfl

theorem tailsL_map (f : Char → Char) (l : List Char) :
    tailsL (l.map f) = (tailsL l).map (List.map f) := by
  induction l with
  | nil => rfl
  | cons c cs ih => simp [tailsL, ih]

theorem tailsL_any_isEmpty (s : List Char) :
    (tailsL s).any (fun s2 => s2.isEmpty) = true := by
  induction s with
  | nil => rfl
  | cons c cs ih => simp [tailsL, List.any_cons, ih]

/-- A pattern that is a wildcard- and escape-free literal followed by `%`
matches exactly the strings having the literal as a case-folded prefix. -/
theorem likeMatch_lit_pct (t : List Char) (ht : ∀ c ∈ t, c ≠ '%' ∧ c ≠ '_' ∧ c ≠ '\\') :
    ∀ s, likeMatch (t ++ ['%']) s = (lowerL t).isPrefixOf (lowerL s) := by
  induction t with
  | nil =>
      intro s
      rw [List.nil_append, likeMatch_cons, if_neg (by decide), if_pos rfl]
      have h1 : (tailsL s).any (fun s2 => likeMatch [] s2)
          = (tailsL s).any (fun s2 => s2.isEmpty) := rfl
      rw [h1, tailsL_any_isEmpty]
      cases s <;> rfl
  | cons p ps ih =>
      intro s
      have hp := ht p (List.mem_cons_self _ _)
      have ih' := ih (fun c hc => ht c (List.mem_cons_of_mem _ hc))
      rw [List.cons_append, likeMatch_cons, if_neg hp.2.2, if_neg hp.1]
      cases s with
      | nil => rfl
      | cons c cs =>
          show ((if p = '_' then true else p.toLower == c.toLower)
              && likeMatch (ps ++ ['%']) cs) = _
          rw [if_neg hp.2.1, ih' cs]
          rfl

/-- For a wildcard- and escape-free term the source's
`ilike('%' + term + '%')` test coincides with the spec's case-insensitive
substring containment. -/
theorem ilike_eq_specContainsCI (t s : String) (ht : wildcardFree t = true) :
    ilike s ("%" ++ t ++ "%") = specContainsCI t s := by
  have ht' : ∀ c ∈ t.toList, c ≠ '%' ∧ c ≠ '_' ∧ c ≠ '\\' := by
    intro c hc
    have h := List.all_eq_true.mp ht c hc
    simp at h
    exact ⟨h.1.1, h.1.2, h.2⟩
  have hlist : ("%" ++ t ++ "%").toList = '%' :: (t.toList ++ ['%']) := by
    simp [String.toList]
  unfold ilike
  rw [hlist, likeMatch_cons, if_neg (by decide), if_pos rfl]
  have h2 : (tailsL s.toList).any (fun s2 => likeMatch (t.toList ++ ['%']) s2)
      = (tailsL s.toList).any (fun s2 => (lowerL t.toList).isPrefixOf (lowerL s2)) := by
    simp only [likeMatch_lit_pct t.toList ht']
  rw [h2]
  unfold specContainsCI
  rw [show lowerL s.toList = s.toList.map Char.toLower from rfl, tailsL_map, List.any_map]
  rfl

/-- A store with one question whose text is `"abc"`. -/
def dbAbc : DB :=
  { questions :=
      [ { id := 1, question := "abc", answer := "x", category := Option.none,
          difficulty := Option.none } ],
    categories := [ { id := 1, type := "Science" } ] }

/-- Two questions, one containing "title", for the search witness. -/
def dbSearch : DB :=
  { questions :=
      [ { id := 1, question := "What is the title?", answer := "x", category := Option.some 1,
          difficulty := Option.none },
        { id := 2, question := "hello", answer := "y", category := Option.some 1,
          difficulty := Option.none } ],
    categories := [ { id := 1, type := "Science" } ] }

/-- The questions `"ab"` and `"xa\bx"`, for the backslash half of the C6
counterexample. -/
def dbBackslash : DB :=
  { questions :=
      [ { id := 1, question := "ab", answer := "x", category := Option.none,
          difficulty := Option.none },
        { id := 2, question := "xa\\bx", answer := "y", category := Option.none,
          difficulty := Option.none } ],
    categories := [ { id := 1, type := "Science" } ] }

/-- **C6 (counterexample).** Searching for the term `"_"` over a store whose
only question text is `"abc"` returns that question — the term is passed to
PostgreSQL `ILIKE`, where `_` matches any single character — although
`"abc"` does not contain `"_"` as a substring; and searching for the term
`"a\b"` over the store `{"ab", "xa\bx"}` returns exactly the question
`"ab"` — `\` is the default escape character, so `\b` in the pattern is a
literal `b` — although `"ab"` does not contain `"a\b"` as a substring and
`"xa\bx"` (which does) is not returned.  So the search does not return
"exactly those questions whose question text contains the term". -/
theorem search_wildcard_counterexample :
    (handle_post { searchTerm := Option.some (PyVal.str "_") } {} dbAbc
      = Except.ok (PostResp.search
          { success := true, total_questions := 1,
            questions := [⟨1, "abc", "x", Option.none, Option.none⟩] })
      ∧ specContainsCI "_" "abc" = false)
    ∧ (handle_post { searchTerm := Option.some (PyVal.str "a\\b") } {} dbBackslash
      = Except.ok (PostResp.search
          { success := true, total_questions := 1,
            questions := [⟨1, "ab", "x", Option.none, Option.none⟩] })
      ∧ specContainsCI "a\\b" "ab" = false
      ∧ specContainsCI "a\\b" "xa\\bx" = true) := by decide

/-- **C6 (amended).** For every search term containing none of the SQL LIKE
wildcards `%` and `_` nor the escape character `\`, the search branch of
`POST /questions` returns exactly the questions whose text contains the term
as a case-insensitive substring — all matches, unpaginated — and
`total_questions` equals the number of matches.  (Terms containing a
wildcard or escape are matched with PostgreSQL LIKE semantics instead: `_`
matches any one character, `%` any sequence, and `\` escapes the following
character.) -/
theorem search_returns_substring_matches (t : String) (body : PostBody) (req : Req) (db : DB)
    (ht : wildcardFree t = true) (hb : body.searchTerm = Option.some (PyVal.str t)) :
    handle_post body req db = Except.ok (PostResp.search
      { success := true,
        total_questions :=
          ((db.questions.filter (fun q => specContainsCI t q.question)).map Question.format).length,
        questions :=
          (db.questions.filter (fun q => specContainsCI t q.question)).map Question.format }) := by
  have hfilt : db.questions.filter (fun q => ilike q.question ("%" ++ t ++ "%"))
      = db.questions.filter (fun q => specContainsCI t q.question) := by
    apply List.filter_congr
    intro q hq
    exact ilike_eq_specContainsCI t q.question ht
  unfold handle_post search_questions search_questions_try
  rw [hb]
  show runHandler (Except.map PostResp.search (pyCatchAll (Except.ok
      ({ success := true,
         total_questions :=
           ((db.questions.filter
               (fun q => ilike q.question ("%" ++ t ++ "%"))).map Question.format).length,
         questions :=
           (db.questions.filter
               (fun q => ilike q.question ("%" ++ t ++ "%"))).map Question.format }
        : SearchResp)) 422)) = _
  rw [hfilt]
  rfl

theorem search_returns_substring_matches_witness :
    handle_post { searchTerm := Option.some (PyVal.str "Title") } {} dbSearch
      = Except.ok (PostResp.search
          { success := true,
            total_questions :=
              ((dbSearch.questions.filter
                  (fun q => specContainsCI "Title" q.question)).map Question.format).length,
            questions :=
              (dbSearch.questions.filter
                  (fun q => specContainsCI "Title" q.question)).map Question.format }) :=
  search_returns_substring_matches "Title"
    { searchTerm := Option.some (PyVal.str "Title") } {} dbSearch (by decide) rfl

